import Mathlib

/-!
Verification of the resource-discovery / mode-resolution layer of the
Wallpaper-Sunrise-Sunset repository (two near-duplicate CLIs,
`src/riset/cli.py` and `src/sunproject/cli.py`).

The Python code is shallowly embedded: the filesystem, the environment and
the outcomes of external processes are packed into an abstract `Sys` value,
and every command handler becomes a pure function of it.  Python string
builtins (`strip`, `lower`, `upper`, `splitlines`, substring tests) are
modelled by structurally recursive functions over `List Char` so that every
definition evaluates by kernel reduction.
-/

namespace Sunset

/-! ### Models of the Python string builtins (ASCII fragment) -/

/-- Python `str.strip()` on the character list: drop leading and trailing
whitespace. -/
def pyStripL (l : List Char) : List Char :=
  ((l.dropWhile Char.isWhitespace).reverse.dropWhile Char.isWhitespace).reverse

/-- Python `str.strip()`. -/
def pyStrip (s : String) : String :=
  String.mk (pyStripL s.data)

/-- Python `str.lower()` (ASCII). -/
def pyLower (s : String) : String :=
  String.mk (s.data.map Char.toLower)

/-- Python `str.upper()` (ASCII). -/
def pyUpper (s : String) : String :=
  String.mk (s.data.map Char.toUpper)

/-- Boolean infix test on lists: is `needle` a contiguous sublist? -/
def infixOfB (needle : List Char) : List Char → Bool
  | [] => needle.isEmpty
  | c :: rest => needle.isPrefixOf (c :: rest) || infixOfB needle rest

/-- Python `needle in haystack` substring test. -/
def strContains (haystack needle : String) : Bool :=
  infixOfB needle.data haystack.data

/-- Python `str.startswith`. -/
def pyStartsWith (s pat : String) : Bool :=
  pat.data.isPrefixOf s.data

/-- Split a character list at every newline; always returns one segment more
than the number of newlines (so a trailing newline yields a final `""`). -/
def splitNlAux : List Char → List Char → List String
  | [], acc => [String.mk acc.reverse]
  | c :: rest, acc =>
    if c = '\n' then String.mk acc.reverse :: splitNlAux rest []
    else splitNlAux rest (c :: acc)

/-- Python `str.splitlines()` for LF-separated text: split on newlines and
drop the empty final segment produced by a trailing newline. -/
def pySplitlines (s : String) : List String :=
  match s.data with
  | [] => []
  | l =>
    let segs := splitNlAux l []
    if l.getLastD ' ' = '\n' then segs.dropLast else segs

/-- Python `" ".join(cmd)`. -/
def joinSpace : List String → String
  | [] => ""
  | [x] => x
  | x :: rest => x ++ " " ++ joinSpace rest

/-- Python `"\n".join(lines)`. -/
def joinNl : List String → String
  | [] => ""
  | [x] => x
  | x :: rest => x ++ "\n" ++ joinNl rest

/-! ### Filesystem / process model -/

/-- What a path points at.  Python `Path.exists()` is true for `file` and
`dir`; `Path.is_file()` only for `file`. -/
inductive PathKind where
  | absent
  | file
  | dir
deriving DecidableEq, Repr

/-- `Path.exists()`. -/
def PathKind.pexists : PathKind → Bool
  | .absent => false
  | _ => true

/-- Outcome of one external process invocation
(`subprocess.run(..., text=True, capture_output=True)`). -/
structure RunOutcome where
  exitCode : Int
  stdout : String
  stderr : String
deriving DecidableEq, Repr

/-- The ambient system a CLI invocation runs against: environment variables,
the filesystem, the behaviour of every external command, and the constants
the interpreter supplies (`Path.home()`, the resolved install root,
`sys.executable`, `os.getuid()`). -/
structure Sys where
  env : String → Option String
  fs : String → PathKind
  run : List String → RunOutcome
  home : String
  installRoot : String
  pyExe : String
  uid : Nat
  /-- Content of the config file at `CONFIG_PATH` (`none` when absent). -/
  configFile : Option String
  /-- Whether `shutil.copy2 src dest` raises, and with which message. -/
  copyErr : String → String → Option String

/-- `Path(a) / b` for a relative component `b`. -/
def pjoin (a b : String) : String := a ++ "/" ++ b

/-- Python truthiness of `os.environ.get(k)`: `None` and `""` are falsy. -/
def envTruthy : Option String → Bool
  | none => false
  | some v => v ≠ ""

/-- `Path(p).expanduser()` for the plain `~` / `~/...` forms. -/
def expanduser (home p : String) : String :=
  if p = "~" then home
  else if pyStartsWith p "~/" then home ++ String.mk (p.data.drop 1)
  else p

/-! ### ResourceLocator (`_homebrew_share_candidates`, `_find_dir`)

Both CLIs share this code verbatim up to the app name / environment-variable
stem, so the definitions are parametrised by `pre` (the variable stem,
`"RISET"` or `"SUNPROJECT"`) and `app` (the share-directory name, `"riset"`
or `"sunproject"`). -/

/-- `_homebrew_share_candidates`: `$HOMEBREW_PREFIX/share/<app>` when the
variable is truthy, then the two hardcoded prefixes. -/
def homebrew_share_candidates (app : String) (s : Sys) : List String :=
  (match s.env "HOMEBREW_PREFIX" with
   | some hb => if hb = "" then [] else [hb ++ "/share/" ++ app]
   | none => []) ++
  [pjoin "/opt/homebrew/share" app, pjoin "/usr/local/share" app]

/-- `_find_dir(name)`: environment override (if truthy and existing), then
the source-tree path `<install-root>/<name>`, then the Homebrew share
candidates, each step only consulted when the previous produced nothing. -/
def find_dir (pre app : String) (s : Sys) (name : String) : Option String :=
  let envKey := pre ++ "_" ++ pyUpper name ++ "_DIR"
  let envHit : Option String :=
    match s.env envKey with
    | some v =>
      if v = "" then none
      else
        let p := expanduser s.home v
        if (s.fs p).pexists then some p else none
    | none => none
  match envHit with
  | some p => some p
  | none =>
    let p := pjoin s.installRoot name
    if (s.fs p).pexists then some p
    else (homebrew_share_candidates app s).map (fun base => pjoin base name)
           |>.find? (fun q => (s.fs q).pexists)

/-- The `FileNotFoundError` message raised by `_scripts_dir` when no
candidate exists. -/
def scriptsNotFoundMsg (pre : String) : String :=
  "Could not find 'scripts' directory. Set ENV '" ++ pre ++
    "_SCRIPTS_DIR' or install scripts via Homebrew pkgshare."

/-- `_launch_agent_paths` (riset CLI): the fixed pair of plist paths under
`~/Library/LaunchAgents`. -/
def launch_agent_paths (s : Sys) : List String :=
  let base := pjoin (pjoin s.home "Library") "LaunchAgents"
  [pjoin base "com.riset.sunrise.plist", pjoin base "com.riset.sunset.plist"]

/-! ### ConfigStore (`_read_config`, `_write_config`)

The config file is modelled by its content: `none` for an absent file,
`some text` otherwise.  The in-memory `dict[str, str]` is an
insertion-ordered association list, exactly Python's iteration order. -/

/-- Python `data[k] = v` on an insertion-ordered dict: update in place when
the key exists, append otherwise. -/
def dictInsert (d : List (String × String)) (k v : String) :
    List (String × String) :=
  if (d.map Prod.fst).contains k then
    d.map (fun kv => if kv.1 = k then (k, v) else kv)
  else d ++ [(k, v)]

/-- Python `line.split("=", 1)` on the character list, assuming a `'='` is
present: the part before the first `'='` and the part after it. -/
def splitEq : List Char → List Char × List Char
  | [] => ([], [])
  | c :: rest =>
    if c = '=' then ([], rest)
    else
      let p := splitEq rest
      (c :: p.1, p.2)

/-- One iteration of the `_read_config` loop: strip the line, skip it when
blank, comment, or without `'='`, otherwise split at the first `'='` and
strip key and value. -/
def parseConfigLine (line : String) : Option (String × String) :=
  let l := pyStrip line
  if l = "" then none
  else if pyStartsWith l "#" then none
  else if ¬ strContains l "=" then none
  else
    let p := splitEq l.data
    some (pyStrip (String.mk p.1), pyStrip (String.mk p.2))

/-- The body of the `_read_config` loop: skip unparsable lines, insert the
parsed pair otherwise. -/
def readFoldStep (d : List (String × String)) (line : String) :
    List (String × String) :=
  match parseConfigLine line with
  | none => d
  | some kv => dictInsert d kv.1 kv.2

/-- `_read_config`: absent file reads as the empty mapping; otherwise fold
the parsed lines into the dict. -/
def read_config (content : Option String) : List (String × String) :=
  match content with
  | none => []
  | some text => (pySplitlines text).foldl readFoldStep []

/-- `_write_config` for app name `app`: a header comment line followed by one
`key=value` line per entry, joined with newlines plus a trailing newline. -/
def write_config (app : String) (cfg : List (String × String)) : String :=
  joinNl (("# " ++ app ++ " config") :: cfg.map (fun kv => kv.1 ++ "=" ++ kv.2))
    ++ "\n"

/-! ### ScriptRunner and command handlers -/

/-- How a command handler leaves the process: a plain `return code`, a
`SystemExit(code)` raised by `_run_or_die`, or an ordinary exception
(`FileNotFoundError` from `_scripts_dir`) carrying its message. -/
inductive CmdResult where
  | ret (code : Int)
  | sysExit (code : Int)
  | exc (msg : String)
deriving DecidableEq, Repr

/-- `main`'s translation of a handler outcome into the process exit code:
returned codes and `SystemExit` codes pass through, any other exception is
printed as `Error: ...` and turned into exit code 1. -/
def mainExit : CmdResult → Int
  | .ret c => c
  | .sysExit c => c
  | .exc _ => 1

/-- The diagnostic `_run_or_die` prints before raising: stripped stderr,
else stripped stdout, else a generic message naming the command. -/
def runOrDieMsg (cmd : List String) (o : RunOutcome) : String :=
  let se := pyStrip o.stderr
  let so := pyStrip o.stdout
  if se ≠ "" then se
  else if so ≠ "" then so
  else "Command failed: " ++ joinSpace cmd

/-- The `SystemExit` code `_run_or_die` raises on failure:
`res.returncode or 1`. -/
def runOrDieCode (c : Int) : Int := if c = 0 then 1 else c

/-- Everything observable about one command invocation that does not touch
the filesystem: the handler outcome, the external scripts invoked via
`_run` / `_run_or_die` (in order), and the lines printed to stdout and
stderr by the handler itself. -/
structure BgOut where
  result : CmdResult
  invoked : List String
  outLines : List String
  errLines : List String
deriving DecidableEq, Repr

/-- The tail of `cmd_background_change` (after the `auto` block): map the
mode to the dedicated script, check it exists, run it fatal-on-nonzero and
confirm.  `inv0` carries the scripts already invoked by the `auto` block. -/
def bgExplicitPhase (s : Sys) (sdir mode : String) (inv0 : List String) :
    BgOut :=
  let script? : Option String :=
    if mode = "day" then some (pjoin sdir "wallpaper_morning.sh")
    else if mode = "night" then some (pjoin sdir "wallpaper_evening.sh")
    else none
  match script? with
  | none =>
    { result := .ret 2, invoked := inv0, outLines := [],
      errLines := ["Invalid --mode. Must be one of: day | night | auto"] }
  | some script =>
    if (s.fs script).pexists then
      let o := s.run [script]
      if o.exitCode ≠ 0 then
        { result := .sysExit (runOrDieCode o.exitCode),
          invoked := inv0 ++ [script], outLines := [],
          errLines := [runOrDieMsg [script] o] }
      else
        { result := .ret 0, invoked := inv0 ++ [script],
          outLines := ["🖼️  Wallpaper set: " ++ mode], errLines := [] }
    else
      { result := .ret 2, invoked := inv0, outLines := [],
        errLines := ["Expected script not found: " ++ script] }

/-- `cmd_background_change`: resolve the scripts directory (raising when
absent), then for `auto` try `wallpaper_times.sh`, else `compute_mode.sh`
whose stripped, lowercased stdout must be `day` or `night`, then fall into
the explicit day/night dispatch. -/
def cmd_background_change (pre app : String) (s : Sys) (mode : String) :
    BgOut :=
  match find_dir pre app s "scripts" with
  | none =>
    { result := .exc (scriptsNotFoundMsg pre), invoked := [],
      outLines := [], errLines := [] }
  | some sdir =>
    if mode = "auto" then
      let times := pjoin sdir "wallpaper_times.sh"
      if (s.fs times).pexists then
        let o := s.run [times]
        if o.exitCode ≠ 0 then
          { result := .sysExit (runOrDieCode o.exitCode), invoked := [times],
            outLines := [], errLines := [runOrDieMsg [times] o] }
        else
          { result := .ret 0, invoked := [times],
            outLines := ["🖼️  Wallpaper set automatically (day/night)."],
            errLines := [] }
      else
        let compute := pjoin sdir "compute_mode.sh"
        if (s.fs compute).pexists then
          let o := s.run [compute]
          if o.exitCode ≠ 0 then
            { result := .sysExit (runOrDieCode o.exitCode),
              invoked := [compute], outLines := [],
              errLines := [runOrDieMsg [compute] o] }
          else
            let m := pyLower (pyStrip (pyStrip o.stdout))
            if m = "day" ∨ m = "night" then
              bgExplicitPhase s sdir m [compute]
            else
              { result := .ret 2, invoked := [compute], outLines := [],
                errLines := ["Invalid mode from compute_mode.sh: " ++ m] }
        else
          { result := .ret 2, invoked := [], outLines := [],
            errLines :=
              ["For --mode auto, expected 'wallpaper_times.sh' or 'compute_mode.sh' not found."] }
    else
      bgExplicitPhase s sdir mode []

/-- `cmd_morning`: resolve the scripts directory, require
`wallpaper_morning.sh`, run it fatal-on-nonzero, confirm. -/
def cmd_morning (pre app : String) (s : Sys) : BgOut :=
  match find_dir pre app s "scripts" with
  | none =>
    { result := .exc (scriptsNotFoundMsg pre), invoked := [],
      outLines := [], errLines := [] }
  | some sdir =>
    let script := pjoin sdir "wallpaper_morning.sh"
    if (s.fs script).pexists then
      let o := s.run [script]
      if o.exitCode ≠ 0 then
        { result := .sysExit (runOrDieCode o.exitCode), invoked := [script],
          outLines := [], errLines := [runOrDieMsg [script] o] }
      else
        { result := .ret 0, invoked := [script],
          outLines := ["🌅 Morning wallpaper applied."], errLines := [] }
    else
      { result := .ret 2, invoked := [], outLines := [],
        errLines := ["Expected script not found: " ++ script] }

/-- `cmd_evening`: as `cmd_morning` with `wallpaper_evening.sh`. -/
def cmd_evening (pre app : String) (s : Sys) : BgOut :=
  match find_dir pre app s "scripts" with
  | none =>
    { result := .exc (scriptsNotFoundMsg pre), invoked := [],
      outLines := [], errLines := [] }
  | some sdir =>
    let script := pjoin sdir "wallpaper_evening.sh"
    if (s.fs script).pexists then
      let o := s.run [script]
      if o.exitCode ≠ 0 then
        { result := .sysExit (runOrDieCode o.exitCode), invoked := [script],
          outLines := [], errLines := [runOrDieMsg [script] o] }
      else
        { result := .ret 0, invoked := [script],
          outLines := ["🌇 Evening wallpaper applied."], errLines := [] }
    else
      { result := .ret 2, invoked := [], outLines := [],
        errLines := ["Expected script not found: " ++ script] }

/-! ### `cmd_post_install`: environment construction and delegate call -/

/-- Python `env.setdefault(key, val)`: set only when the key is absent. -/
def envSetdefault (e : String → Option String) (key val : String) :
    String → Option String :=
  fun k => if k = key then some ((e key).getD val) else e k

/-- The environment riset's `cmd_post_install` hands to
`bash wallpaper_times.sh`: a copy of the parent environment with
`RISET_PYTHON_BIN` (the interpreter path) and, when present in the config,
`RISET_LAT` / `RISET_LON`, each set-if-absent. -/
def riset_post_install_env (parent : String → Option String)
    (cfg : List (String × String)) (pyExe : String) :
    String → Option String :=
  let env := envSetdefault parent "RISET_PYTHON_BIN" pyExe
  let env :=
    match cfg.lookup "lat" with
    | some v => envSetdefault env "RISET_LAT" v
    | none => env
  match cfg.lookup "lon" with
  | some v => envSetdefault env "RISET_LON" v
  | none => env

/-- The environment sunproject's `cmd_post_install` hands to the delegate:
as riset's but with the `SUNPROJECT_` stems and no interpreter variable. -/
def sunproject_post_install_env (parent : String → Option String)
    (cfg : List (String × String)) : String → Option String :=
  let env :=
    match cfg.lookup "lat" with
    | some v => envSetdefault parent "SUNPROJECT_LAT" v
    | none => parent
  match cfg.lookup "lon" with
  | some v => envSetdefault env "SUNPROJECT_LON" v
  | none => env

/-- `cmd_post_install` (riset): resolve the scripts directory, require
`wallpaper_times.sh`, run it through bash with the augmented environment,
propagate its exit code on failure, echo its output and confirm on
success.  (The modelled `Sys.run` outcome does not depend on the injected
environment; the environment itself is `riset_post_install_env`.) -/
def cmd_post_install (pre app : String) (s : Sys) : BgOut :=
  match find_dir pre app s "scripts" with
  | none =>
    { result := .exc (scriptsNotFoundMsg pre), invoked := [],
      outLines := [], errLines := [] }
  | some sdir =>
    let times := pjoin sdir "wallpaper_times.sh"
    if (s.fs times).pexists then
      let o := s.run ["bash", times]
      if o.exitCode ≠ 0 then
        let err :=
          if pyStrip o.stderr ≠ "" then pyStrip o.stderr
          else if pyStrip o.stdout ≠ "" then pyStrip o.stdout
          else "wallpaper_times.sh failed"
        { result := .ret o.exitCode, invoked := ["bash", times],
          outLines := [], errLines := [err] }
      else
        { result := .ret 0, invoked := ["bash", times],
          outLines :=
            (if pyStrip o.stdout ≠ "" then [pyStrip o.stdout] else []) ++
              ["✅ wallpaper_times.sh executed (launch agents updated)."],
          errLines := if pyStrip o.stderr ≠ "" then [pyStrip o.stderr] else [] }
    else
      { result := .ret 2, invoked := [], outLines := [],
        errLines := ["Expected script not found: " ++ times] }

/-! ### AssetReplacer (`_replace_wallpaper_image`, commands `day`/`night`) -/

/-- A filesystem side effect attempted by `_replace_wallpaper_image`. -/
inductive FsAct where
  | mkdirParents (p : String)
  | copy2 (src dest : String)
deriving DecidableEq, Repr

/-- `Path(p).parent` for the paths built here with `pjoin`: everything
before the last slash. -/
def parentDir (p : String) : String :=
  String.mk (((p.data.reverse.dropWhile (fun c => c ≠ '/')).drop 1).reverse)

/-- Result of an asset replacement: exit code, filesystem actions attempted
(in order), stdout and stderr lines. -/
structure ImgOut where
  exit : Int
  acts : List FsAct
  outLines : List String
  errLines : List String
deriving DecidableEq, Repr

/-- `_replace_wallpaper_image(src, dest_filename, label)`: require the
assets directory, validate the (user-expanded) source exists and is a
regular file, create the destination's parents, copy bytes+metadata,
report the destination on success — exit 2 on every failure. -/
def replace_wallpaper_image (pre app : String) (s : Sys)
    (src destFilename label : String) : ImgOut :=
  match find_dir pre app s "assets" with
  | none =>
    { exit := 2, acts := [], outLines := [],
      errLines :=
        ["Could not find assets directory. Set " ++ pre ++
          "_ASSETS_DIR or ensure assets are installed."] }
  | some adir =>
    let srcPath := expanduser s.home src
    if ¬ (s.fs srcPath).pexists then
      { exit := 2, acts := [], outLines := [],
        errLines := ["Image not found: " ++ srcPath] }
    else if s.fs srcPath ≠ .file then
      { exit := 2, acts := [], outLines := [],
        errLines := ["Expected a file but got: " ++ srcPath] }
    else
      let destPath := pjoin adir destFilename
      match s.copyErr srcPath destPath with
      | some oserr =>
        { exit := 2,
          acts := [.mkdirParents (parentDir destPath),
                   .copy2 srcPath destPath],
          outLines := [],
          errLines := ["Failed to copy image: " ++ oserr] }
      | none =>
        { exit := 0,
          acts := [.mkdirParents (parentDir destPath),
                   .copy2 srcPath destPath],
          outLines := ["✅ " ++ label ++ " wallpaper updated -> " ++ destPath],
          errLines := [] }

/-- `cmd_day_image` (riset): copy to `assets/morning.jpg`. -/
def cmd_day_image (s : Sys) (image : String) : ImgOut :=
  replace_wallpaper_image "RISET" "riset" s image "morning.jpg" "Day"

/-- `cmd_night_image` (riset): copy to `assets/evening.jpg`. -/
def cmd_night_image (s : Sys) (image : String) : ImgOut :=
  replace_wallpaper_image "RISET" "riset" s image "evening.jpg" "Night"

/-! ### AgentCleaner (`cmd_cleanup`, riset CLI) -/

/-- `Path(p).name`: the final path component. -/
def baseName (p : String) : String :=
  String.mk ((p.data.reverse.takeWhile (fun c => c ≠ '/')).reverse)

/-- The message `cmd_cleanup` inspects after a bootout: stripped stderr,
else stripped stdout. -/
def bootoutMsg (o : RunOutcome) : String :=
  let se := pyStrip o.stderr
  let so := pyStrip o.stdout
  if se ≠ "" then se else so

/-- Classification of one `launchctl bootout` outcome: exit 0 and the
"operation now in progress" code 36 are harmless; any other exit is an
error only when the message is non-empty and indicates neither
"No such process" nor "No such file or directory". -/
def bootoutError (plistName : String) (o : RunOutcome) : Option String :=
  if o.exitCode = 0 ∨ o.exitCode = 36 then none
  else
    let msg := bootoutMsg o
    if msg ≠ "" ∧ strContains msg "No such process" = false ∧
        strContains msg "No such file or directory" = false then
      some ("launchctl bootout " ++ plistName ++ ": " ++ msg)
    else none

/-- Classification of `plist.unlink()`: deleting an absent file raises
`FileNotFoundError`, which is swallowed; a regular file is removed; any
other failure (modelled: the path is a directory) is recorded. -/
def unlinkError (s : Sys) (p : String) : Option String :=
  match s.fs p with
  | .absent => none
  | .file => none
  | .dir => some ("Remove " ++ baseName p ++ ": [Errno 21] Is a directory: " ++ p)

/-- The argv of the bootout call for descriptor `p`. -/
def bootoutArgv (s : Sys) (p : String) : List String :=
  ["launchctl", "bootout", "gui/" ++ toString s.uid, p]

/-- Result of a cleanup run: exit code, the recorded (and printed) errors,
the success line, and the system as the run leaves it (descriptor files
that were regular files are gone; nothing else changes). -/
structure CleanupOut where
  exit : Int
  errors : List String
  outLines : List String
  sys : Sys

/-- `cmd_cleanup`: for each fixed descriptor path, bootout (classifying the
outcome) and delete the file (idempotently); return 1 and print the errors
when any were recorded, otherwise confirm and return 0. -/
def cmd_cleanup (s : Sys) : CleanupOut :=
  let plists := launch_agent_paths s
  let errors := plists.foldl
    (fun errs p =>
      (errs ++ (bootoutError (baseName p) (s.run (bootoutArgv s p))).toList)
        ++ (unlinkError s p).toList)
    []
  let fs' := fun q =>
    if q ∈ plists ∧ s.fs q = .file then PathKind.absent else s.fs q
  if errors = [] then
    { exit := 0, errors := [], outLines := ["🧹 Launch agents removed."],
      sys := { s with fs := fs' } }
  else
    { exit := 1, errors := errors, outLines := [],
      sys := { s with fs := fs' } }

/-- `n` successive cleanup runs, threading the system state. -/
def cleanupIter : Nat → Sys → Sys
  | 0, s => s
  | n + 1, s => cleanupIter n (cmd_cleanup s).sys

/-! ### Helper lemmas on the string models -/

theorem stringExt {s t : String} (h : s.data = t.data) : s = t := by
  cases s; cases t; exact congrArg String.mk h

theorem pjoin_inj_right {a b c : String} (h : pjoin a b = pjoin a c) : b = c := by
  have hd : (a ++ "/").data ++ b.data = (a ++ "/").data ++ c.data :=
    congrArg String.data h
  exact stringExt (List.append_cancel_left hd)

theorem pjoin_ne_right {b c : String} (a : String) (h : b ≠ c) :
    pjoin a b ≠ pjoin a c :=
  fun heq => h (pjoin_inj_right heq)

theorem isPrefixOf_append_self (n t : List Char) :
    n.isPrefixOf (n ++ t) = true := by
  induction n with
  | nil => simp [List.isPrefixOf]
  | cons c r ih => simp [List.isPrefixOf, ih]

theorem infixOfB_of_prefixOf {n h : List Char} (hp : n.isPrefixOf h = true) :
    infixOfB n h = true := by
  cases h with
  | nil =>
    cases n with
    | nil => rfl
    | cons c r => simp [List.isPrefixOf] at hp
  | cons c rest => simp [infixOfB, hp]

theorem infixOfB_append (n s t : List Char) :
    infixOfB n (s ++ n ++ t) = true := by
  induction s with
  | nil => exact infixOfB_of_prefixOf (isPrefixOf_append_self n t)
  | cons c rest ih =>
    show (n.isPrefixOf ((c :: rest) ++ n ++ t) || infixOfB n (rest ++ n ++ t))
      = true
    rw [ih, Bool.or_true]

theorem strContains_append (a b c : String) :
    strContains (a ++ b ++ c) b = true := by
  have hd : (a ++ b ++ c).data = a.data ++ b.data ++ c.data := rfl
  unfold strContains
  rw [hd]
  exact infixOfB_append b.data a.data c.data

theorem dropWhile_ws_eq_self {l : List Char}
    (h : (l.headD 'x').isWhitespace = false) :
    l.dropWhile Char.isWhitespace = l := by
  cases l with
  | nil => rfl
  | cons c r =>
    have hc : c.isWhitespace = false := h
    simp [List.dropWhile, hc]

theorem headD_dropWhile_ws (l : List Char) :
    (((l.dropWhile Char.isWhitespace).headD 'x').isWhitespace) = false := by
  induction l with
  | nil => simp [List.dropWhile, List.headD]
  | cons c r ih =>
    by_cases h : c.isWhitespace = true
    · have hstep : List.dropWhile Char.isWhitespace (c :: r) =
          List.dropWhile Char.isWhitespace r := by
        simp [List.dropWhile, h]
      rw [hstep]; exact ih
    · have hb : c.isWhitespace = false := by simpa using h
      simp [List.dropWhile, hb, List.headD]

theorem pyStripL_eq_self {l : List Char}
    (h1 : (l.headD 'x').isWhitespace = false)
    (h2 : (l.getLastD 'x').isWhitespace = false) :
    pyStripL l = l := by
  unfold pyStripL
  rw [dropWhile_ws_eq_self h1]
  have hrev : l.reverse.headD 'x' = l.getLastD 'x' := by
    rw [List.headD_eq_head?, List.head?_reverse, List.getLastD_eq_getLast?]
  rw [dropWhile_ws_eq_self (by rw [hrev]; exact h2), List.reverse_reverse]

theorem pyStripL_getLastD (l : List Char) :
    ((pyStripL l).getLastD 'x').isWhitespace = false := by
  unfold pyStripL
  set t := l.dropWhile Char.isWhitespace with ht
  set z := t.reverse.dropWhile Char.isWhitespace with hz
  rw [List.getLastD_eq_getLast?, List.getLast?_reverse, ← List.headD_eq_head?]
  rw [hz]
  exact headD_dropWhile_ws t.reverse

theorem pyStripL_headD (l : List Char) :
    ((pyStripL l).headD 'x').isWhitespace = false := by
  unfold pyStripL
  set t := l.dropWhile Char.isWhitespace with ht
  set z := t.reverse.dropWhile Char.isWhitespace with hz
  rw [List.headD_eq_head?, List.head?_reverse]
  by_cases hznil : z = []
  · rw [hznil]
    decide
  · obtain ⟨u, hu⟩ : z <:+ t.reverse := by rw [hz]; exact List.dropWhile_suffix _
    rw [← List.getLast?_append_of_ne_nil u hznil, hu, List.getLast?_reverse,
      ← List.headD_eq_head?, ht]
    exact headD_dropWhile_ws l

theorem pyStripL_idem (l : List Char) : pyStripL (pyStripL l) = pyStripL l :=
  pyStripL_eq_self (pyStripL_headD l) (pyStripL_getLastD l)

theorem pyStrip_idem (s : String) : pyStrip (pyStrip s) = pyStrip s := by
  unfold pyStrip
  exact congrArg String.mk (pyStripL_idem s.data)

/-! ### Concrete systems used by witnesses and counterexamples -/

/-- A bare system: no environment, nothing on disk, every external command
fails with exit 5 and silent output. -/
def emptySys : Sys :=
  { env := fun _ => none, fs := fun _ => PathKind.absent,
    run := fun _ => ⟨5, "", ""⟩, home := "/Users/u", installRoot := "/repo",
    pyExe := "/usr/bin/python3", uid := 501, configFile := none,
    copyErr := fun _ _ => none }

/-- A source checkout with both auto delegates present; every script
succeeds silently. -/
def timesSys : Sys :=
  { emptySys with
    fs := fun p =>
      if p = "/repo/scripts" then PathKind.dir
      else if p = "/repo/scripts/wallpaper_times.sh" ∨
          p = "/repo/scripts/compute_mode.sh" then PathKind.file
      else PathKind.absent,
    run := fun _ => ⟨0, "", ""⟩ }

/-- A source checkout with only the decision delegate, which reports
`"dusk"`; the per-mode scripts are present. -/
def duskSys : Sys :=
  { emptySys with
    fs := fun p =>
      if p = "/repo/scripts" then PathKind.dir
      else if p = "/repo/scripts/compute_mode.sh" ∨
          p = "/repo/scripts/wallpaper_morning.sh" ∨
          p = "/repo/scripts/wallpaper_evening.sh" then PathKind.file
      else PathKind.absent,
    run := fun c =>
      if c = ["/repo/scripts/compute_mode.sh"] then ⟨0, "dusk", ""⟩
      else ⟨0, "", ""⟩ }

/-- As `duskSys` but the decision delegate prints `"NIGHT\n"`. -/
def nightSys : Sys :=
  { duskSys with
    run := fun c =>
      if c = ["/repo/scripts/compute_mode.sh"] then ⟨0, "NIGHT\n", ""⟩
      else ⟨0, "", ""⟩ }

/-- The scripts override variable points at a regular file. -/
def fileOverrideSys : Sys :=
  { emptySys with
    env := fun k => if k = "RISET_SCRIPTS_DIR" then some "/tmp/f" else none,
    fs := fun p => if p = "/tmp/f" then PathKind.file else PathKind.absent }

/-- No agents installed: descriptor files absent, bootout reports
"No such process". -/
def absentAgentsSys : Sys :=
  { emptySys with
    run := fun _ => ⟨3, "", "Boot-out failed: 3: No such process"⟩ }

/-- Bootout fails for a real reason (message matches no benign pattern);
descriptor files absent. -/
def bootoutFailSys : Sys :=
  { emptySys with
    run := fun _ => ⟨78, "", "Boot-out failed: 78: Function not implemented"⟩ }

/-- Only the assets directory exists; no image source does. -/
def assetsOnlySys : Sys :=
  { emptySys with
    fs := fun p => if p = "/repo/assets" then PathKind.dir else PathKind.absent }

/-! ### C1 -/

/-- C1: for `background_change --mode auto`, when `wallpaper_times.sh`
exists in the resolved scripts directory it alone is invoked —
`compute_mode.sh` and the per-mode scripts are not, even if present — and
when it exits zero the command prints the automatic-success confirmation
and returns exit code 0. -/
theorem C1_auto_unified_delegate (pre app : String) (s : Sys) (sdir : String)
    (hdir : find_dir pre app s "scripts" = some sdir)
    (hx : (s.fs (pjoin sdir "wallpaper_times.sh")).pexists = true)
    (h0 : (s.run [pjoin sdir "wallpaper_times.sh"]).exitCode = 0) :
    (cmd_background_change pre app s "auto").result = CmdResult.ret 0 ∧
    mainExit (cmd_background_change pre app s "auto").result = 0 ∧
    (cmd_background_change pre app s "auto").invoked =
      [pjoin sdir "wallpaper_times.sh"] ∧
    pjoin sdir "compute_mode.sh" ∉
      (cmd_background_change pre app s "auto").invoked ∧
    pjoin sdir "wallpaper_morning.sh" ∉
      (cmd_background_change pre app s "auto").invoked ∧
    pjoin sdir "wallpaper_evening.sh" ∉
      (cmd_background_change pre app s "auto").invoked ∧
    (cmd_background_change pre app s "auto").outLines =
      ["🖼️  Wallpaper set automatically (day/night)."] := by
  have hr : cmd_background_change pre app s "auto" =
      { result := CmdResult.ret 0,
        invoked := [pjoin sdir "wallpaper_times.sh"],
        outLines := ["🖼️  Wallpaper set automatically (day/night)."],
        errLines := [] } := by
    unfold cmd_background_change
    rw [hdir]
    simp [hx, h0]
  rw [hr]
  refine ⟨rfl, rfl, rfl, ?_, ?_, ?_, rfl⟩ <;>
    · intro hmem
      rw [List.mem_singleton] at hmem
      exact pjoin_ne_right sdir (by decide) hmem

/-- C1 witness: a source checkout where both auto delegates are present and
succeed; the unified delegate is the only invocation. -/
theorem C1_auto_unified_delegate_witness :
    (timesSys.fs (pjoin "/repo/scripts" "wallpaper_times.sh")).pexists = true ∧
    (cmd_background_change "RISET" "riset" timesSys "auto").result =
      CmdResult.ret 0 ∧
    (cmd_background_change "RISET" "riset" timesSys "auto").invoked =
      [pjoin "/repo/scripts" "wallpaper_times.sh"] ∧
    pjoin "/repo/scripts" "compute_mode.sh" ∉
      (cmd_background_change "RISET" "riset" timesSys "auto").invoked := by
  have h := C1_auto_unified_delegate "RISET" "riset" timesSys "/repo/scripts"
    (by decide) (by decide) (by decide)
  exact ⟨by decide, h.1, h.2.2.1, h.2.2.2.1⟩

/-! ### C2 -/

/-- C2: for `auto` with `wallpaper_times.sh` absent and `compute_mode.sh`
present and exiting zero, the resolved mode is the trimmed lowercased
stdout of `compute_mode.sh` (double-stripping changes nothing); `"NIGHT\n"`
resolves to `night`; `day`/`night` select and run the corresponding
per-mode script; any other value prints the invalid-mode diagnostic and
returns exit code 2 without invoking either per-mode script. -/
theorem C2_auto_decision_delegate (pre app : String) (s : Sys) (sdir : String)
    (hdir : find_dir pre app s "scripts" = some sdir)
    (hnt : s.fs (pjoin sdir "wallpaper_times.sh") = PathKind.absent)
    (hc : (s.fs (pjoin sdir "compute_mode.sh")).pexists = true)
    (h0 : (s.run [pjoin sdir "compute_mode.sh"]).exitCode = 0) :
    pyLower (pyStrip (pyStrip (s.run [pjoin sdir "compute_mode.sh"]).stdout))
      = pyLower (pyStrip (s.run [pjoin sdir "compute_mode.sh"]).stdout) ∧
    pyLower (pyStrip "NIGHT\n") = "night" ∧
    (pyLower (pyStrip (s.run [pjoin sdir "compute_mode.sh"]).stdout) = "night" →
      (s.fs (pjoin sdir "wallpaper_evening.sh")).pexists = true →
      (cmd_background_change pre app s "auto").invoked =
        [pjoin sdir "compute_mode.sh", pjoin sdir "wallpaper_evening.sh"]) ∧
    (pyLower (pyStrip (s.run [pjoin sdir "compute_mode.sh"]).stdout) = "day" →
      (s.fs (pjoin sdir "wallpaper_morning.sh")).pexists = true →
      (cmd_background_change pre app s "auto").invoked =
        [pjoin sdir "compute_mode.sh", pjoin sdir "wallpaper_morning.sh"]) ∧
    (pyLower (pyStrip (s.run [pjoin sdir "compute_mode.sh"]).stdout) ≠ "day" →
      pyLower (pyStrip (s.run [pjoin sdir "compute_mode.sh"]).stdout) ≠ "night" →
      (cmd_background_change pre app s "auto").result = CmdResult.ret 2 ∧
      mainExit (cmd_background_change pre app s "auto").result = 2 ∧
      (cmd_background_change pre app s "auto").invoked =
        [pjoin sdir "compute_mode.sh"] ∧
      pjoin sdir "wallpaper_morning.sh" ∉
        (cmd_background_change pre app s "auto").invoked ∧
      pjoin sdir "wallpaper_evening.sh" ∉
        (cmd_background_change pre app s "auto").invoked ∧
      (cmd_background_change pre app s "auto").errLines =
        ["Invalid mode from compute_mode.sh: " ++
          pyLower (pyStrip (s.run [pjoin sdir "compute_mode.sh"]).stdout)]) := by
  have hidem : pyLower (pyStrip (pyStrip
      (s.run [pjoin sdir "compute_mode.sh"]).stdout)) =
      pyLower (pyStrip (s.run [pjoin sdir "compute_mode.sh"]).stdout) := by
    rw [pyStrip_idem]
  have hnx : (s.fs (pjoin sdir "wallpaper_times.sh")).pexists = false := by
    rw [hnt]; rfl
  refine ⟨hidem, by decide, ?_, ?_, ?_⟩
  · intro hm hev
    unfold cmd_background_change
    rw [hdir]
    simp only [hnx, hc, h0, hidem, hm]
    simp [bgExplicitPhase, hev]
    split <;> rfl
  · intro hm hmo
    unfold cmd_background_change
    rw [hdir]
    simp only [hnx, hc, h0, hidem, hm]
    simp [bgExplicitPhase, hmo]
    split <;> rfl
  · intro hd hn
    have hr : cmd_background_change pre app s "auto" =
        { result := CmdResult.ret 2,
          invoked := [pjoin sdir "compute_mode.sh"],
          outLines := [],
          errLines := ["Invalid mode from compute_mode.sh: " ++
            pyLower (pyStrip (s.run [pjoin sdir "compute_mode.sh"]).stdout)] }
        := by
      unfold cmd_background_change
      rw [hdir]
      simp [hnx, hc, h0, hidem, hd, hn]
    rw [hr]
    refine ⟨rfl, rfl, rfl, ?_, ?_, rfl⟩ <;>
      · intro hmem
        rw [List.mem_singleton] at hmem
        exact pjoin_ne_right sdir (by decide) hmem

/-- C2 witness: the decision delegate prints `"dusk"`, so the command fails
with exit code 2 and invokes neither per-mode script; and on `nightSys` the
delegate's `"NIGHT\n"` resolves to `night`. -/
theorem C2_auto_decision_delegate_witness :
    (cmd_background_change "RISET" "riset" duskSys "auto").result =
      CmdResult.ret 2 ∧
    pjoin "/repo/scripts" "wallpaper_evening.sh" ∉
      (cmd_background_change "RISET" "riset" duskSys "auto").invoked ∧
    (cmd_background_change "RISET" "riset" duskSys "auto").errLines =
      ["Invalid mode from compute_mode.sh: dusk"] ∧
    (cmd_background_change "RISET" "riset" nightSys "auto").invoked =
      [pjoin "/repo/scripts" "compute_mode.sh",
       pjoin "/repo/scripts" "wallpaper_evening.sh"] := by
  have hdusk := C2_auto_decision_delegate "RISET" "riset" duskSys
    "/repo/scripts" (by decide) (by decide) (by decide) (by decide)
  have hnight := C2_auto_decision_delegate "RISET" "riset" nightSys
    "/repo/scripts" (by decide) (by decide) (by decide) (by decide)
  have hd := hdusk.2.2.2.2 (by decide) (by decide)
  refine ⟨hd.1, hd.2.2.2.2.1, ?_, hnight.2.2.1 (by decide) (by decide)⟩
  rw [hd.2.2.2.2.2]
  decide

/-! ### C3 -/

/-- Spec-side definition (claim C3's words): the fixed candidate order for a
logical resource name — the override variable's path when the variable is
set (to a non-empty value), then `<install-root>/<name>`, then
`$HOMEBREW_PREFIX/share/<app>/<name>` when set, then the
`/opt/homebrew` and `/usr/local` share paths. -/
def locateSpecCandidates (pre app : String) (s : Sys) (name : String) :
    List String :=
  (match s.env (pre ++ "_" ++ pyUpper name ++ "_DIR") with
   | some v => if v = "" then [] else [expanduser s.home v]
   | none => []) ++
  [pjoin s.installRoot name] ++
  (homebrew_share_candidates app s).map (fun base => pjoin base name)

/-- Spec-side locator: the first existing candidate, or nothing. -/
def locateSpec (pre app : String) (s : Sys) (name : String) : Option String :=
  (locateSpecCandidates pre app s name).find? (fun p => (s.fs p).pexists)

theorem find_dir_eq_locateSpec (pre app : String) (s : Sys) (name : String) :
    find_dir pre app s name = locateSpec pre app s name := by
  unfold find_dir locateSpec locateSpecCandidates
  cases henv : s.env (pre ++ "_" ++ pyUpper name ++ "_DIR") with
    | none =>
      simp only [henv, List.nil_append]
      by_cases hroot : (s.fs (pjoin s.installRoot name)).pexists = true
      · simp [List.find?, hroot]
      · have hroot' : (s.fs (pjoin s.installRoot name)).pexists = false := by
          simpa using hroot
        simp [List.find?, hroot']
    | some v =>
      by_cases hv : v = ""
      · simp only [henv, hv, if_pos rfl, List.nil_append]
        by_cases hroot : (s.fs (pjoin s.installRoot name)).pexists = true
        · simp [List.find?, hroot]
        · have hroot' : (s.fs (pjoin s.installRoot name)).pexists = false := by
            simpa using hroot
          simp [List.find?, hroot']
      · by_cases hex : (s.fs (expanduser s.home v)).pexists = true
        · simp [henv, hv, hex, List.find?]
        · have hex' : (s.fs (expanduser s.home v)).pexists = false := by
            simpa using hex
          by_cases hroot : (s.fs (pjoin s.installRoot name)).pexists = true
          · simp [henv, hv, hex', hroot, List.find?]
          · have hroot' : (s.fs (pjoin s.installRoot name)).pexists = false := by
              simpa using hroot
            simp [henv, hv, hex', hroot', List.find?]
/-- C3: the locator returns exactly the first existing candidate of the
fixed search order, and nothing (not an error) when no candidate exists. -/
theorem C3_locator_search_order (pre app : String) (s : Sys) (name : String) :
    find_dir pre app s name = locateSpec pre app s name ∧
    ((∀ p ∈ locateSpecCandidates pre app s name, (s.fs p).pexists = false) →
      find_dir pre app s name = none) := by
  refine ⟨find_dir_eq_locateSpec pre app s name, fun hall => ?_⟩
  rw [find_dir_eq_locateSpec pre app s name]
  unfold locateSpec
  rw [List.find?_eq_none]
  intro p hp
  simp [hall p hp]

/-- C3 witness: on a bare system no candidate exists and the locator
returns nothing. -/
theorem C3_locator_search_order_witness :
    find_dir "RISET" "riset" emptySys "scripts" = none :=
  (C3_locator_search_order "RISET" "riset" emptySys "scripts").2 (by decide)

/-! ### C4 -/

theorem scriptsMsg_contains_var (pre : String) :
    strContains (scriptsNotFoundMsg pre) (pre ++ "_SCRIPTS_DIR") = true := by
  unfold strContains scriptsNotFoundMsg
  have hB : ("_SCRIPTS_DIR' or install scripts via Homebrew pkgshare." :
        String).data =
      ("_SCRIPTS_DIR" : String).data ++
        ("' or install scripts via Homebrew pkgshare." : String).data := by
    decide
  have h1 : ("Could not find 'scripts' directory. Set ENV '" ++ pre ++
        "_SCRIPTS_DIR' or install scripts via Homebrew pkgshare.").data =
      ("Could not find 'scripts' directory. Set ENV '" : String).data ++
        (pre ++ "_SCRIPTS_DIR").data ++
        ("' or install scripts via Homebrew pkgshare." : String).data := by
    show ("Could not find 'scripts' directory. Set ENV '" : String).data ++
        pre.data ++
        ("_SCRIPTS_DIR' or install scripts via Homebrew pkgshare." :
          String).data = _
    rw [hB]
    show _ = ("Could not find 'scripts' directory. Set ENV '" : String).data ++
      (pre.data ++ ("_SCRIPTS_DIR" : String).data) ++
      ("' or install scripts via Homebrew pkgshare." : String).data
    simp [List.append_assoc]
  rw [h1]
  exact infixOfB_append _ _ _

/-- C4 (amended): when no scripts directory candidate exists, each of the
four script-requiring commands raises the `scripts`-not-found error whose
message names the override variable to set, and the process exit code
under `main` is 1 (generic exception), not 2. -/
theorem C4_scripts_dir_missing (pre app : String) (s : Sys) (mode : String)
    (h : find_dir pre app s "scripts" = none) :
    cmd_background_change pre app s mode =
      { result := CmdResult.exc (scriptsNotFoundMsg pre), invoked := [],
        outLines := [], errLines := [] } ∧
    cmd_morning pre app s =
      { result := CmdResult.exc (scriptsNotFoundMsg pre), invoked := [],
        outLines := [], errLines := [] } ∧
    cmd_evening pre app s =
      { result := CmdResult.exc (scriptsNotFoundMsg pre), invoked := [],
        outLines := [], errLines := [] } ∧
    cmd_post_install pre app s =
      { result := CmdResult.exc (scriptsNotFoundMsg pre), invoked := [],
        outLines := [], errLines := [] } ∧
    mainExit (CmdResult.exc (scriptsNotFoundMsg pre)) = 1 ∧
    strContains (scriptsNotFoundMsg pre) (pre ++ "_SCRIPTS_DIR") = true := by
  refine ⟨?_, ?_, ?_, ?_, rfl, scriptsMsg_contains_var pre⟩
  · unfold cmd_background_change; rw [h]
  · unfold cmd_morning; rw [h]
  · unfold cmd_evening; rw [h]
  · unfold cmd_post_install; rw [h]

/-- C4 witness: on a bare system the amended claim applies. -/
theorem C4_scripts_dir_missing_witness :
    cmd_morning "RISET" "riset" emptySys =
      { result := CmdResult.exc (scriptsNotFoundMsg "RISET"), invoked := [],
        outLines := [], errLines := [] } ∧
    strContains (scriptsNotFoundMsg "RISET") ("RISET" ++ "_SCRIPTS_DIR")
      = true := by
  have h := C4_scripts_dir_missing "RISET" "riset" emptySys "auto" (by decide)
  exact ⟨h.2.1, h.2.2.2.2.2⟩

/-- C4 counterexample: with no scripts directory anywhere, every
script-requiring command exits with code 1 — not 2 as the claim states. -/
theorem C4_scripts_dir_missing_counterexample :
    find_dir "RISET" "riset" emptySys "scripts" = none ∧
    mainExit (cmd_background_change "RISET" "riset" emptySys "auto").result
      = 1 ∧
    mainExit (cmd_morning "RISET" "riset" emptySys).result = 1 ∧
    mainExit (cmd_evening "RISET" "riset" emptySys).result = 1 ∧
    mainExit (cmd_post_install "RISET" "riset" emptySys).result = 1 ∧
    mainExit (cmd_background_change "RISET" "riset" emptySys "auto").result
      ≠ 2 := by
  decide

/-! ### C5 -/

theorem bootoutError_none_of_absent_msg (n : String) (o : RunOutcome)
    (h : strContains (bootoutMsg o) "No such process" = true ∨
      strContains (bootoutMsg o) "No such file or directory" = true) :
    bootoutError n o = none := by
  unfold bootoutError
  split
  · rfl
  · rcases h with h | h <;> simp [h]

theorem cmd_cleanup_sys_of_absent (s : Sys)
    (habs : ∀ p ∈ launch_agent_paths s, s.fs p = PathKind.absent) :
    (cmd_cleanup s).sys = s := by
  have hfs : (fun q =>
      if q ∈ launch_agent_paths s ∧ s.fs q = PathKind.file
      then PathKind.absent else s.fs q) = s.fs := by
    funext q
    by_cases hq : q ∈ launch_agent_paths s ∧ s.fs q = PathKind.file
    · exact absurd hq.2 (by rw [habs q hq.1]; decide)
    · simp [hq]
  unfold cmd_cleanup
  simp only [hfs, apply_ite CleanupOut.sys, ite_self]

theorem cmd_cleanup_clean (s : Sys)
    (habs : ∀ p ∈ launch_agent_paths s, s.fs p = PathKind.absent)
    (hrep : ∀ p ∈ launch_agent_paths s,
      strContains (bootoutMsg (s.run (bootoutArgv s p))) "No such process"
        = true ∨
      strContains (bootoutMsg (s.run (bootoutArgv s p)))
        "No such file or directory" = true) :
    (cmd_cleanup s).exit = 0 ∧ (cmd_cleanup s).errors = [] := by
  have hp1 : pjoin (pjoin (pjoin s.home "Library") "LaunchAgents")
      "com.riset.sunrise.plist" ∈ launch_agent_paths s := by
    simp [launch_agent_paths]
  have hp2 : pjoin (pjoin (pjoin s.home "Library") "LaunchAgents")
      "com.riset.sunset.plist" ∈ launch_agent_paths s := by
    simp [launch_agent_paths]
  have hb1 := bootoutError_none_of_absent_msg
    (baseName (pjoin (pjoin (pjoin s.home "Library") "LaunchAgents")
      "com.riset.sunrise.plist")) _ (hrep _ hp1)
  have hb2 := bootoutError_none_of_absent_msg
    (baseName (pjoin (pjoin (pjoin s.home "Library") "LaunchAgents")
      "com.riset.sunset.plist")) _ (hrep _ hp2)
  have hu1 : unlinkError s (pjoin (pjoin (pjoin s.home "Library")
      "LaunchAgents") "com.riset.sunrise.plist") = none := by
    unfold unlinkError
    rw [habs _ hp1]
  have hu2 : unlinkError s (pjoin (pjoin (pjoin s.home "Library")
      "LaunchAgents") "com.riset.sunset.plist") = none := by
    unfold unlinkError
    rw [habs _ hp2]
  unfold cmd_cleanup
  simp [launch_agent_paths, List.foldl, hb1, hb2, hu1, hu2]

/-- C5: cleanup is idempotent on an empty system — with no descriptor files
and the bootout call reporting the agents absent, every run in any
succession records no errors and returns exit code 0. -/
theorem C5_cleanup_idempotent_empty (s : Sys)
    (habs : ∀ p ∈ launch_agent_paths s, s.fs p = PathKind.absent)
    (hrep : ∀ p ∈ launch_agent_paths s,
      strContains (bootoutMsg (s.run (bootoutArgv s p))) "No such process"
        = true ∨
      strContains (bootoutMsg (s.run (bootoutArgv s p)))
        "No such file or directory" = true) :
    ∀ n : Nat, (cmd_cleanup (cleanupIter n s)).exit = 0 ∧
      (cmd_cleanup (cleanupIter n s)).errors = [] := by
  have hiter : ∀ n, cleanupIter n s = s := by
    intro n
    induction n with
    | zero => rfl
    | succ k ih =>
      show cleanupIter k (cmd_cleanup s).sys = s
      rw [cmd_cleanup_sys_of_absent s habs]
      exact ih
  intro n
  rw [hiter n]
  exact cmd_cleanup_clean s habs hrep

/-- C5 witness: three successive runs on a system with no agents installed
all succeed with no errors. -/
theorem C5_cleanup_idempotent_empty_witness :
    (cmd_cleanup (cleanupIter 0 absentAgentsSys)).exit = 0 ∧
    (cmd_cleanup (cleanupIter 2 absentAgentsSys)).exit = 0 ∧
    (cmd_cleanup (cleanupIter 2 absentAgentsSys)).errors = [] := by
  have h := C5_cleanup_idempotent_empty absentAgentsSys
    (by decide) (by decide)
  exact ⟨(h 0).1, (h 2).1, (h 2).2⟩

/-! ### C6 -/

/-- C6 (amended): bootout classification — exit 0 and exit 36 are harmless;
an absent-indicating message is harmless; an **empty** message is also
harmless (the code only records an error when the message is non-empty);
and a non-zero, non-36 exit with a non-empty message matching neither
absence pattern is recorded as an error, which makes cleanup return exit
code 1. -/
theorem C6_bootout_error_classification (n : String) (o : RunOutcome) :
    (o.exitCode = 0 → bootoutError n o = none) ∧
    (o.exitCode = 36 → bootoutError n o = none) ∧
    (bootoutMsg o = "" → bootoutError n o = none) ∧
    (strContains (bootoutMsg o) "No such process" = true →
      bootoutError n o = none) ∧
    (strContains (bootoutMsg o) "No such file or directory" = true →
      bootoutError n o = none) ∧
    (o.exitCode ≠ 0 → o.exitCode ≠ 36 → bootoutMsg o ≠ "" →
      strContains (bootoutMsg o) "No such process" = false →
      strContains (bootoutMsg o) "No such file or directory" = false →
      bootoutError n o =
        some ("launchctl bootout " ++ n ++ ": " ++ bootoutMsg o)) ∧
    (∀ s : Sys, ∀ p ∈ launch_agent_paths s,
      bootoutError (baseName p) (s.run (bootoutArgv s p)) ≠ none →
      (cmd_cleanup s).exit = 1) := by
  refine ⟨?_, ?_, ?_,
    fun h => bootoutError_none_of_absent_msg n o (Or.inl h),
    fun h => bootoutError_none_of_absent_msg n o (Or.inr h),
    ?_, ?_⟩
  · intro h
    unfold bootoutError
    simp [h]
  · intro h
    unfold bootoutError
    simp [h]
  · intro h
    unfold bootoutError
    split
    · rfl
    · simp [h]
  · intro h0 h36 hne hc1 hc2
    unfold bootoutError
    rw [if_neg (by simp [h0, h36])]
    rw [if_pos ⟨hne, hc1, hc2⟩]
  · intro s p hp hne
    obtain ⟨e, he⟩ := Option.ne_none_iff_exists'.mp hne
    rcases (by simpa [launch_agent_paths] using hp :
        p = pjoin (pjoin (pjoin s.home "Library") "LaunchAgents")
          "com.riset.sunrise.plist" ∨
        p = pjoin (pjoin (pjoin s.home "Library") "LaunchAgents")
          "com.riset.sunset.plist") with h1 | h2
    · subst h1
      unfold cmd_cleanup
      simp only [launch_agent_paths, List.foldl, he]
      rw [if_neg (by simp)]
    · subst h2
      unfold cmd_cleanup
      simp only [launch_agent_paths, List.foldl, he]
      rw [if_neg (by simp)]

/-- C6 witness: a bootout failure with a real (non-absence) message is
recorded and cleanup returns exit code 1. -/
theorem C6_bootout_error_classification_witness :
    bootoutError "com.riset.sunrise.plist"
      (bootoutFailSys.run (bootoutArgv bootoutFailSys
        "/Users/u/Library/LaunchAgents/com.riset.sunrise.plist")) =
      some ("launchctl bootout com.riset.sunrise.plist: " ++
        "Boot-out failed: 78: Function not implemented") ∧
    (cmd_cleanup bootoutFailSys).exit = 1 := by
  have h := C6_bootout_error_classification "com.riset.sunrise.plist"
    (bootoutFailSys.run (bootoutArgv bootoutFailSys
      "/Users/u/Library/LaunchAgents/com.riset.sunrise.plist"))
  constructor
  · rw [h.2.2.2.2.2.1 (by decide) (by decide) (by decide) (by decide)
      (by decide)]
    decide
  · exact h.2.2.2.2.2.2 bootoutFailSys
      "/Users/u/Library/LaunchAgents/com.riset.sunrise.plist"
      (by decide) (by decide)

/-- C6 counterexample: a bootout exit of 5 with empty stdout and stderr is
non-zero, non-36, and its message indicates neither absence pattern, yet
no error is recorded and cleanup returns exit code 0 — the code only
records an error when the message is non-empty, which the claim omits. -/
theorem C6_bootout_error_classification_counterexample :
    (emptySys.run (bootoutArgv emptySys
      "/Users/u/Library/LaunchAgents/com.riset.sunrise.plist")).exitCode
      = 5 ∧
    bootoutMsg (emptySys.run (bootoutArgv emptySys
      "/Users/u/Library/LaunchAgents/com.riset.sunrise.plist")) = "" ∧
    strContains (bootoutMsg (emptySys.run (bootoutArgv emptySys
      "/Users/u/Library/LaunchAgents/com.riset.sunrise.plist")))
      "No such process" = false ∧
    strContains (bootoutMsg (emptySys.run (bootoutArgv emptySys
      "/Users/u/Library/LaunchAgents/com.riset.sunrise.plist")))
      "No such file or directory" = false ∧
    bootoutError "com.riset.sunrise.plist"
      (emptySys.run (bootoutArgv emptySys
        "/Users/u/Library/LaunchAgents/com.riset.sunrise.plist")) = none ∧
    (cmd_cleanup emptySys).errors = [] ∧
    (cmd_cleanup emptySys).exit = 0 := by
  decide

/-! ### C7 -/

/-- "Survives the line format" (claim C7), key side: non-empty, free of
`'='` and newlines, not starting with `'#'`, unchanged by stripping. -/
def LineSafeKey (k : String) : Prop :=
  k.data ≠ [] ∧ '=' ∉ k.data ∧ '\n' ∉ k.data ∧
    k.data.headD 'x' ≠ '#' ∧ pyStrip k = k

instance (k : String) : Decidable (LineSafeKey k) := by
  unfold LineSafeKey
  infer_instance

/-- "Survives the line format", value side: newline-free and unchanged by
stripping. -/
def LineSafeVal (v : String) : Prop :=
  '\n' ∉ v.data ∧ pyStrip v = v

instance (v : String) : Decidable (LineSafeVal v) := by
  unfold LineSafeVal
  infer_instance

theorem stringMk_data (s : String) : String.mk s.data = s := by
  cases s; rfl

theorem headD_of_stripped {k : String} (h : pyStrip k = k) :
    (k.data.headD 'x').isWhitespace = false := by
  have hd : pyStripL k.data = k.data := congrArg String.data h
  rw [← hd]
  exact pyStripL_headD k.data

theorem getLastD_of_stripped {v : String} (h : pyStrip v = v) :
    (v.data.getLastD 'x').isWhitespace = false := by
  have hd : pyStripL v.data = v.data := congrArg String.data h
  rw [← hd]
  exact pyStripL_getLastD v.data

theorem pyStripL_line_eq {k v : String}
    (hk : pyStrip k = k) (hkne : k.data ≠ [])
    (hv : pyStrip v = v) :
    pyStripL (k.data ++ '=' :: v.data) = k.data ++ '=' :: v.data := by
  apply pyStripL_eq_self
  · cases hk' : k.data with
    | nil => exact absurd hk' hkne
    | cons c r =>
      have hh := headD_of_stripped hk
      rw [hk'] at hh
      simpa [List.headD] using hh
  · cases hvd : v.data with
    | nil =>
      rw [List.getLastD_eq_getLast?,
        List.getLast?_append_of_ne_nil k.data (by simp)]
      decide
    | cons c r =>
      have hlast := getLastD_of_stripped hv
      rw [hvd] at hlast
      rw [List.getLastD_eq_getLast?,
        List.getLast?_append_of_ne_nil k.data (by simp),
        List.getLast?_cons_cons, ← List.getLastD_eq_getLast?]
      exact hlast

theorem splitEq_append {k : List Char} (v : List Char) (hk : '=' ∉ k) :
    splitEq (k ++ '=' :: v) = (k, v) := by
  induction k with
  | nil => simp [splitEq]
  | cons c r ih =>
    have hc : ¬ (c = '=') := fun e => hk (by rw [e]; exact List.mem_cons_self _ _)
    have hr : '=' ∉ r := fun hm => hk (List.mem_cons_of_mem _ hm)
    simp [splitEq, hc, ih hr]

theorem parseConfigLine_kv {k v : String}
    (hk : LineSafeKey k) (hv : LineSafeVal v) :
    parseConfigLine (k ++ "=" ++ v) = some (k, v) := by
  obtain ⟨hkne, hkeq, hknl, hkhash, hkstrip⟩ := hk
  obtain ⟨hvnl, hvstrip⟩ := hv
  have hLdata : (k ++ "=" ++ v).data = k.data ++ '=' :: v.data := by
    show (k.data ++ ['=']) ++ v.data = _
    simp
  have hstrip : pyStrip (k ++ "=" ++ v) = k ++ "=" ++ v := by
    apply stringExt
    show pyStripL (k ++ "=" ++ v).data = (k ++ "=" ++ v).data
    rw [hLdata]
    exact pyStripL_line_eq hkstrip hkne hvstrip
  have hne0 : ¬ (k ++ "=" ++ v) = "" := by
    intro h
    have : (k ++ "=" ++ v).data = [] := by rw [h]
    rw [hLdata] at this
    exact absurd (List.append_eq_nil.mp this).2 (by simp)
  have hnohash : pyStartsWith (k ++ "=" ++ v) "#" = false := by
    unfold pyStartsWith
    rw [hLdata]
    cases hk' : k.data with
    | nil => exact absurd hk' hkne
    | cons c r =>
      have hc : ¬ ('#' = c) := by
        intro e
        apply hkhash
        rw [hk', List.headD, e]
      show List.isPrefixOf ['#'] (c :: (r ++ '=' :: v.data)) = false
      simp [List.isPrefixOf, hc]
  have heqmem : strContains (k ++ "=" ++ v) "=" = true := by
    unfold strContains
    rw [hLdata]
    have hshape : k.data ++ '=' :: v.data =
        k.data ++ ("=" : String).data ++ v.data := by simp
    rw [hshape]
    exact infixOfB_append _ _ _
  unfold parseConfigLine
  rw [hstrip]
  rw [if_neg hne0, if_neg (by rw [hnohash]; exact Bool.false_ne_true),
    if_neg (by rw [heqmem]; simp)]
  rw [hLdata, splitEq_append v.data hkeq]
  show some (pyStrip (String.mk k.data), pyStrip (String.mk v.data))
    = some (k, v)
  rw [stringMk_data k, stringMk_data v, hkstrip, hvstrip]

theorem splitNlAux_append_line (xs : List Char) (hxs : '\n' ∉ xs)
    (rest acc : List Char) :
    splitNlAux (xs ++ '\n' :: rest) acc =
      String.mk (acc.reverse ++ xs) :: splitNlAux rest [] := by
  induction xs generalizing acc with
  | nil => simp [splitNlAux]
  | cons c r ih =>
    have hc : ¬ (c = '\n') := fun e => hxs (by rw [e]; exact List.mem_cons_self _ _)
    have hr : '\n' ∉ r := fun hm => hxs (List.mem_cons_of_mem _ hm)
    show splitNlAux (c :: (r ++ '\n' :: rest)) acc = _
    rw [splitNlAux, if_neg hc, ih hr]
    simp

theorem splitNlAux_joinRec (L : List String) (hne : L ≠ [])
    (hL : ∀ x ∈ L, '\n' ∉ x.data) :
    splitNlAux ((joinNl L).data ++ ['\n']) [] = L ++ [String.mk []] := by
  induction L with
  | nil => exact absurd rfl hne
  | cons x rest ih =>
    cases rest with
    | nil =>
      show splitNlAux (x.data ++ ['\n']) [] = [x, String.mk []]
      have h := splitNlAux_append_line x.data
        (hL x (List.mem_cons_self x [])) [] []
      rw [show x.data ++ ['\n'] = x.data ++ '\n' :: [] from rfl, h]
      simp [splitNlAux, stringMk_data]
    | cons y rest2 =>
      have hx : '\n' ∉ x.data := hL x (List.mem_cons_self x (y :: rest2))
      have hrest : ∀ z ∈ y :: rest2, '\n' ∉ z.data :=
        fun z hz => hL z (List.mem_cons_of_mem _ hz)
      have hshape : (joinNl (x :: y :: rest2)).data ++ ['\n'] =
          x.data ++ '\n' :: ((joinNl (y :: rest2)).data ++ ['\n']) := by
        show ((x.data ++ ['\n']) ++ (joinNl (y :: rest2)).data) ++ ['\n'] = _
        simp
      rw [hshape, splitNlAux_append_line x.data hx _ [],
        ih (by simp) hrest]
      simp [stringMk_data]

theorem pySplitlines_joinNl (L : List String) (hne : L ≠ [])
    (hL : ∀ x ∈ L, '\n' ∉ x.data) :
    pySplitlines (joinNl L ++ "\n") = L := by
  have haux := splitNlAux_joinRec L hne hL
  unfold pySplitlines
  cases hj : (joinNl L ++ "\n").data with
  | nil =>
    exact absurd hj (by show (joinNl L).data ++ ['\n'] ≠ []; simp)
  | cons c cs =>
    have hlast : (c :: cs).getLastD ' ' = '\n' := by
      rw [← hj]
      show ((joinNl L).data ++ ['\n']).getLastD ' ' = '\n'
      rw [List.getLastD_eq_getLast?, List.getLast?_concat]
      rfl
    have haux2 : splitNlAux (c :: cs) [] = L ++ [String.mk []] := by
      rw [← hj]
      exact haux
    show (if (c :: cs).getLastD ' ' = '\n'
        then (splitNlAux (c :: cs) []).dropLast
        else splitNlAux (c :: cs) []) = L
    rw [if_pos hlast, haux2, List.dropLast_concat]

theorem dictInsert_append {d : List (String × String)} {k : String}
    (h : k ∉ d.map Prod.fst) (v : String) :
    dictInsert d k v = d ++ [(k, v)] := by
  unfold dictInsert
  rw [if_neg (by simpa using h)]

theorem foldl_readFoldStep (cfg : List (String × String))
    (hsafe : ∀ kv ∈ cfg, LineSafeKey kv.1 ∧ LineSafeVal kv.2)
    (hnodup : (cfg.map Prod.fst).Nodup) :
    ∀ d : List (String × String), (∀ kv ∈ cfg, kv.1 ∉ d.map Prod.fst) →
      (cfg.map (fun kv => kv.1 ++ "=" ++ kv.2)).foldl readFoldStep d
        = d ++ cfg := by
  induction cfg with
  | nil =>
    intro d _
    simp
  | cons a rest ih =>
    intro d hdisj
    rw [List.map_cons, List.foldl_cons]
    have hstep : readFoldStep d (a.1 ++ "=" ++ a.2) = d ++ [(a.1, a.2)] := by
      unfold readFoldStep
      rw [parseConfigLine_kv (hsafe a (List.mem_cons_self _ _)).1
        (hsafe a (List.mem_cons_self _ _)).2]
      exact dictInsert_append (hdisj a (List.mem_cons_self _ _)) a.2
    rw [hstep]
    have hnodup' : (rest.map Prod.fst).Nodup := by
      rw [List.map_cons] at hnodup
      exact hnodup.of_cons
    have hknotin : a.1 ∉ rest.map Prod.fst := by
      rw [List.map_cons] at hnodup
      exact (List.nodup_cons.mp hnodup).1
    have hdisj' : ∀ kv ∈ rest, kv.1 ∉ (d ++ [(a.1, a.2)]).map Prod.fst := by
      intro kv hkv hmem
      rw [List.map_append] at hmem
      rcases List.mem_append.mp hmem with hmem | hmem
      · exact hdisj kv (List.mem_cons_of_mem _ hkv) hmem
      · simp only [List.map_cons, List.map_nil, List.mem_singleton] at hmem
        apply hknotin
        rw [← hmem]
        exact List.mem_map_of_mem Prod.fst hkv
    rw [ih (fun z hz => hsafe z (List.mem_cons_of_mem _ hz)) hnodup'
      (d ++ [(a.1, a.2)]) hdisj']
    simp

/-- C7: ConfigStore round-trip — for every mapping whose keys and values
survive the line format (in particular `lat`/`lon` coordinates), writing
the config then reading it back yields the same mapping; a file with
malformed lines interspersed reads by skipping them; an absent file reads
as the empty mapping. -/
theorem C7_config_roundtrip :
    (∀ cfg : List (String × String),
      (∀ kv ∈ cfg, LineSafeKey kv.1 ∧ LineSafeVal kv.2) →
      (cfg.map Prod.fst).Nodup →
      read_config (some (write_config "riset" cfg)) = cfg) ∧
    read_config
      (some "lat=41.0082\nthis line is malformed\n# note\n\nlon=28.9784\n")
      = [("lat", "41.0082"), ("lon", "28.9784")] ∧
    read_config none = [] := by
  refine ⟨?_, by decide, rfl⟩
  intro cfg hsafe hnodup
  show (pySplitlines (write_config "riset" cfg)).foldl readFoldStep [] = cfg
  unfold write_config
  rw [show ("# " ++ "riset" ++ " config") = "# riset config" from by decide]
  rw [pySplitlines_joinNl
    (("# riset config") :: cfg.map (fun kv => kv.1 ++ "=" ++ kv.2))
    (by simp) ?hnl]
  case hnl =>
    intro x hx
    rcases List.mem_cons.mp hx with hx | hx
    · rw [hx]
      decide
    · obtain ⟨kv, hkv, hmap⟩ := List.mem_map.mp hx
      obtain ⟨⟨_, _, hknl, _, _⟩, ⟨hvnl, _⟩⟩ := hsafe kv hkv
      rw [← hmap]
      intro hmem
      rw [show (kv.1 ++ "=" ++ kv.2).data = kv.1.data ++ '=' :: kv.2.data
        from by show (kv.1.data ++ ['=']) ++ kv.2.data = _; simp] at hmem
      rcases List.mem_append.mp hmem with h | h
      · exact hknl h
      · rcases List.mem_cons.mp h with h | h
        · exact absurd h (by decide)
        · exact hvnl h
  rw [List.foldl_cons]
  rw [show readFoldStep [] "# riset config" = [] from by decide]
  exact foldl_readFoldStep cfg hsafe hnodup [] (by simp)

/-- C7 witness: the Istanbul coordinates round-trip exactly. -/
theorem C7_config_roundtrip_witness :
    read_config (some (write_config "riset"
      [("lat", "41.0082"), ("lon", "28.9784")]))
      = [("lat", "41.0082"), ("lon", "28.9784")] :=
  C7_config_roundtrip.1 [("lat", "41.0082"), ("lon", "28.9784")]
    (by decide) (by decide)

/-! ### C8 -/

/-- C8 (amended): whenever the locator returns a path, that path exists at
resolution time; existence — not directory-hood — is the selection
criterion, so the returned path may be a regular file. -/
theorem C8_locator_returns_existing (pre app : String) (s : Sys)
    (name p : String) (h : find_dir pre app s name = some p) :
    (s.fs p).pexists = true := by
  rw [find_dir_eq_locateSpec pre app s name] at h
  unfold locateSpec at h
  have h2 := List.find?_some h
  simpa using h2

/-- C8 witness: the invariant applies to the override-to-a-file system. -/
theorem C8_locator_returns_existing_witness :
    (fileOverrideSys.fs "/tmp/f").pexists = true :=
  C8_locator_returns_existing "RISET" "riset" fileOverrideSys "scripts"
    "/tmp/f" (by decide)

/-- C8 counterexample: with the override variable naming a regular file the
locator returns that path even though it is not a directory. -/
theorem C8_locator_returns_existing_counterexample :
    fileOverrideSys.env "RISET_SCRIPTS_DIR" = some "/tmp/f" ∧
    find_dir "RISET" "riset" fileOverrideSys "scripts" = some "/tmp/f" ∧
    fileOverrideSys.fs "/tmp/f" = PathKind.file ∧
    fileOverrideSys.fs "/tmp/f" ≠ PathKind.dir := by
  decide

/-! ### C9 -/

theorem riset_env_char (parent : String → Option String)
    (cfg : List (String × String)) (pyExe k : String) :
    riset_post_install_env parent cfg pyExe k =
      match parent k with
      | some v => some v
      | none =>
        if k = "RISET_PYTHON_BIN" then some pyExe
        else if k = "RISET_LAT" then cfg.lookup "lat"
        else if k = "RISET_LON" then cfg.lookup "lon"
        else none := by
  unfold riset_post_install_env envSetdefault
  cases hlat : cfg.lookup "lat" <;> cases hlon : cfg.lookup "lon" <;>
    by_cases h1 : k = "RISET_LON" <;> by_cases h2 : k = "RISET_LAT" <;>
    by_cases h3 : k = "RISET_PYTHON_BIN" <;> cases hp : parent k <;>
    simp_all

theorem sunproject_env_char (parent : String → Option String)
    (cfg : List (String × String)) (k : String) :
    sunproject_post_install_env parent cfg k =
      match parent k with
      | some v => some v
      | none =>
        if k = "SUNPROJECT_LAT" then cfg.lookup "lat"
        else if k = "SUNPROJECT_LON" then cfg.lookup "lon"
        else none := by
  unfold sunproject_post_install_env envSetdefault
  cases hlat : cfg.lookup "lat" <;> cases hlon : cfg.lookup "lon" <;>
    by_cases h1 : k = "SUNPROJECT_LON" <;>
    by_cases h2 : k = "SUNPROJECT_LAT" <;> cases hp : parent k <;>
    simp_all

/-- C9 (amended): both post-install environment builders copy the full
parent environment — every parent variable keeps its value, nothing is
removed — and a key new to the child is either `<PREFIX>_LAT` /
`<PREFIX>_LON` coming from the config, or, in the riset CLI only, the
interpreter path `RISET_PYTHON_BIN`, which is injected set-if-absent even
when the config is empty. -/
theorem C9_post_install_env (parent : String → Option String)
    (cfg : List (String × String)) (pyExe : String) :
    (∀ k v, parent k = some v →
      riset_post_install_env parent cfg pyExe k = some v ∧
      sunproject_post_install_env parent cfg k = some v) ∧
    (∀ k, riset_post_install_env parent cfg pyExe k = none →
      parent k = none) ∧
    (∀ k, sunproject_post_install_env parent cfg k = none →
      parent k = none) ∧
    (∀ k, parent k = none →
      riset_post_install_env parent cfg pyExe k ≠ none →
      (k = "RISET_PYTHON_BIN" ∧
        riset_post_install_env parent cfg pyExe k = some pyExe) ∨
      (k = "RISET_LAT" ∧ ∃ v, cfg.lookup "lat" = some v ∧
        riset_post_install_env parent cfg pyExe k = some v) ∨
      (k = "RISET_LON" ∧ ∃ v, cfg.lookup "lon" = some v ∧
        riset_post_install_env parent cfg pyExe k = some v)) ∧
    (∀ k, parent k = none →
      sunproject_post_install_env parent cfg k ≠ none →
      (k = "SUNPROJECT_LAT" ∧ ∃ v, cfg.lookup "lat" = some v ∧
        sunproject_post_install_env parent cfg k = some v) ∨
      (k = "SUNPROJECT_LON" ∧ ∃ v, cfg.lookup "lon" = some v ∧
        sunproject_post_install_env parent cfg k = some v)) := by
  refine ⟨?_, ?_, ?_, ?_, ?_⟩
  · intro k v hk
    rw [riset_env_char, sunproject_env_char, hk]
    exact ⟨rfl, rfl⟩
  · intro k hk
    rw [riset_env_char] at hk
    cases hp : parent k with
    | none => rfl
    | some v => rw [hp] at hk; exact absurd hk (by simp)
  · intro k hk
    rw [sunproject_env_char] at hk
    cases hp : parent k with
    | none => rfl
    | some v => rw [hp] at hk; exact absurd hk (by simp)
  · intro k hpar hne
    rw [riset_env_char, hpar] at hne
    by_cases h1 : k = "RISET_PYTHON_BIN"
    · exact Or.inl ⟨h1, by rw [riset_env_char, hpar]; simp [h1]⟩
    · by_cases h2 : k = "RISET_LAT"
      · rw [if_neg h1, if_pos h2] at hne
        obtain ⟨v, hv⟩ := Option.ne_none_iff_exists'.mp hne
        have hv' : cfg.lookup "lat" = some v := hv
        refine Or.inr (Or.inl ⟨h2, v, hv', ?_⟩)
        rw [riset_env_char, hpar]
        simp [h1, h2, hv']
      · by_cases h3 : k = "RISET_LON"
        · rw [if_neg h1, if_neg h2, if_pos h3] at hne
          obtain ⟨v, hv⟩ := Option.ne_none_iff_exists'.mp hne
          have hv' : cfg.lookup "lon" = some v := hv
          refine Or.inr (Or.inr ⟨h3, v, hv', ?_⟩)
          rw [riset_env_char, hpar]
          simp [h1, h2, h3, hv']
        · rw [if_neg h1, if_neg h2, if_neg h3] at hne
          exact absurd rfl hne
  · intro k hpar hne
    rw [sunproject_env_char, hpar] at hne
    by_cases h2 : k = "SUNPROJECT_LAT"
    · rw [if_pos h2] at hne
      obtain ⟨v, hv⟩ := Option.ne_none_iff_exists'.mp hne
      have hv' : cfg.lookup "lat" = some v := hv
      refine Or.inl ⟨h2, v, hv', ?_⟩
      rw [sunproject_env_char, hpar]
      simp [h2, hv']
    · by_cases h3 : k = "SUNPROJECT_LON"
      · rw [if_neg h2, if_pos h3] at hne
        obtain ⟨v, hv⟩ := Option.ne_none_iff_exists'.mp hne
        have hv' : cfg.lookup "lon" = some v := hv
        refine Or.inr ⟨h3, v, hv', ?_⟩
        rw [sunproject_env_char, hpar]
        simp [h2, h3, hv']
      · rw [if_neg h2, if_neg h3] at hne
        exact absurd rfl hne

/-- A small parent environment for the C9 witness: has `PATH` and already
has `RISET_LAT`. -/
def parentEnvEx : String → Option String :=
  fun k =>
    if k = "PATH" then some "/usr/bin"
    else if k = "RISET_LAT" then some "10.0" else none

/-- C9 witness: parent variables survive unchanged in both builders, and a
parent-set `RISET_LAT` wins over the config's value (set-if-absent). -/
theorem C9_post_install_env_witness :
    riset_post_install_env parentEnvEx [("lat", "41.0082")]
      "/usr/bin/python3" "PATH" = some "/usr/bin" ∧
    sunproject_post_install_env parentEnvEx [("lat", "41.0082")] "PATH"
      = some "/usr/bin" ∧
    riset_post_install_env parentEnvEx [("lat", "41.0082")]
      "/usr/bin/python3" "RISET_LAT" = some "10.0" := by
  have h := C9_post_install_env parentEnvEx [("lat", "41.0082")]
    "/usr/bin/python3"
  have h1 := h.1 "PATH" "/usr/bin" rfl
  have h2 := h.1 "RISET_LAT" "10.0" rfl
  exact ⟨h1.1, h1.2, h2.1⟩

/-- C9 counterexample: with an empty parent environment and an empty config,
riset's post-install nevertheless injects `RISET_PYTHON_BIN` — a key that
was absent from the parent and is not present in the config, contradicting
the claim that injected keys come only from the stored config values. -/
theorem C9_post_install_env_counterexample :
    (fun _ : String => (none : Option String)) "RISET_PYTHON_BIN" = none ∧
    ([] : List (String × String)).lookup "lat" = none ∧
    ([] : List (String × String)).lookup "lon" = none ∧
    riset_post_install_env (fun _ => none) [] "/usr/bin/python3"
      "RISET_PYTHON_BIN" = some "/usr/bin/python3" :=
  ⟨rfl, rfl, rfl, rfl⟩

/-! ### C10 -/

/-- C10: replacing an asset from a source path that does not exist (with
the assets directory resolvable) prints a diagnostic, returns exit code 2,
and attempts no filesystem action — the destination file is neither
created nor modified, and no copy is attempted. -/
theorem C10_replace_missing_source (pre app : String) (s : Sys)
    (src destFilename label adir : String)
    (hassets : find_dir pre app s "assets" = some adir)
    (hsrc : s.fs (expanduser s.home src) = PathKind.absent) :
    (replace_wallpaper_image pre app s src destFilename label).exit = 2 ∧
    (replace_wallpaper_image pre app s src destFilename label).acts = [] ∧
    (replace_wallpaper_image pre app s src destFilename label).outLines
      = [] ∧
    (replace_wallpaper_image pre app s src destFilename label).errLines =
      ["Image not found: " ++ expanduser s.home src] ∧
    FsAct.copy2 (expanduser s.home src) (pjoin adir destFilename) ∉
      (replace_wallpaper_image pre app s src destFilename label).acts ∧
    cmd_day_image s src =
      replace_wallpaper_image "RISET" "riset" s src "morning.jpg" "Day" ∧
    cmd_night_image s src =
      replace_wallpaper_image "RISET" "riset" s src "evening.jpg" "Night"
    := by
  have hr : replace_wallpaper_image pre app s src destFilename label =
      { exit := 2, acts := [], outLines := [],
        errLines := ["Image not found: " ++ expanduser s.home src] } := by
    unfold replace_wallpaper_image
    rw [hassets]
    simp [hsrc, PathKind.pexists]
  rw [hr]
  exact ⟨rfl, rfl, rfl, rfl, by simp, rfl, rfl⟩

/-- C10 witness: a bare system with only the assets directory and a
non-existent source image. -/
theorem C10_replace_missing_source_witness :
    (replace_wallpaper_image "RISET" "riset" assetsOnlySys "/nope.jpg"
      "morning.jpg" "Day").exit = 2 ∧
    (replace_wallpaper_image "RISET" "riset" assetsOnlySys "/nope.jpg"
      "morning.jpg" "Day").acts = [] ∧
    (replace_wallpaper_image "RISET" "riset" assetsOnlySys "/nope.jpg"
      "morning.jpg" "Day").errLines = ["Image not found: /nope.jpg"] := by
  have h := C10_replace_missing_source "RISET" "riset" assetsOnlySys
    "/nope.jpg" "morning.jpg" "Day" "/repo/assets" (by decide) (by decide)
  refine ⟨h.1, h.2.1, ?_⟩
  rw [h.2.2.2.1]
  decide

end Sunset
